import Mathlib

/-!
A shallow embedding of the Kudos views of `app/kudos/views.py` (the `arku/web`
repository): profile lookup, token detail rendering, the kudos transfer
lifecycle (`send_3`, `send_4`, `receive`) and the bulk-coupon gate
(`receive_bulk`).  Database tables are modelled as Lean lists of records;
each HTTP view becomes a pure function from the stores and the request data
to an outcome together with the stores after the call.  External effects
(chain-balance queries, notification dispatch, activity recording) are
modelled as explicit parameters or failure-injection flags.
-/

namespace KudosApp

/-- The `metadata` JSON blob stored on a `KudosTransfer`.  The field name
`reference_hash_for_receipient` keeps the spelling used in the source's
query (`metadata__reference_hash_for_receipient`). -/
structure Metadata where
  address : String
  creation_time : Nat
  salt : String
  reference_hash_for_receipient : String
  reference_hash_for_funder : String
deriving DecidableEq, Repr

/-- `dashboard.models.Profile`, restricted to the fields the kudos views read
or write: primary key, github handle, creation timestamp (modelled as a Nat
so `order_by('-created_on')` is a numeric sort) and the preferred payout
address. -/
structure Profile where
  pk : Nat
  handle : String
  created_on : Nat
  preferred_payout_address : String
deriving DecidableEq, Repr

/-- `kudos.models.Token`, restricted to the fields the views use.
`pk` is the database id, `token_id` the on-chain id that
`cloned_from_id` points to, `contract_address` stands for
`token.contract.address`. -/
structure Token where
  pk : Nat
  token_id : Nat
  contract_address : String
  name : String
  description : String
  humanized_name : String
  img_url : String
  num_clones_allowed : Nat
  num_clones_in_wild : Nat
  cloned_from_id : Nat
  hidden : Bool
deriving DecidableEq, Repr

/-- `kudos.models.KudosTransfer`: the transfer-intent record.
`recipient_profile` / `sender_profile` store a `Profile.pk`.
Empty string stands for a NULL / blank text field (Python falsy). -/
structure KudosTransfer where
  pk : Nat
  emails : List String
  kudos_token_cloned_from : Nat
  amount : String
  comments_public : String
  ip : String
  github_url : String
  from_name : String
  from_email : String
  from_username : String
  username : String
  network : String
  tokenAddress : String
  from_address : String
  is_for_bounty_fulfiller : Bool
  metadata : Metadata
  recipient_profile : Option Nat
  sender_profile : Option Nat
  txid : String
  receive_txid : String
  receive_address : String
  received_on : Option Nat
  web3_type : String
  trust_url : Bool
deriving DecidableEq, Repr

/-- The two exceptions `QuerySet.get` can raise. -/
inductive DbError
  | doesNotExist
  | multipleObjectsReturned
deriving DecidableEq, Repr

/-- `Model.objects.get(...)`: succeeds iff exactly one row satisfies the
filter, otherwise raises `DoesNotExist` / `MultipleObjectsReturned`. -/
def objectsGet {α : Type} (db : List α) (p : α → Bool) : Except DbError α :=
  match db.filter p with
  | [t] => .ok t
  | [] => .error .doesNotExist
  | _ => .error .multipleObjectsReturned

/-- `handle__iexact`: case-insensitive string equality, modelled as equality
of the character-wise lowered strings. -/
def iexact (a b : String) : Bool :=
  a.data.map Char.toLower == b.data.map Char.toLower

/-- `qs.order_by('-created_on').first()`: the first row of the descending
sort by `created_on`, i.e. the earliest-listed row with maximal
`created_on`. -/
def latestCreated : List Profile → Option Profile
  | [] => none
  | p :: ps => some (ps.foldl (fun acc q => if acc.created_on < q.created_on then q else acc) p)

/-- `get_profile(handle)` (views.py:59): `Profile.objects.get(handle__iexact=handle)`,
catching `MultipleObjectsReturned` (fall back to the most recently created
match) and `DoesNotExist` (return `None`).  Total by construction: both
exception paths are caught in the source. -/
def get_profile (profiles : List Profile) (handle : String) : Option Profile :=
  match profiles.filter (fun p => iexact p.handle handle) with
  | [] => none
  | [p] => some p
  | ps => latestCreated ps

section GetProfileLemmas

private def laterOf (acc q : Profile) : Profile :=
  if acc.created_on < q.created_on then q else acc

private lemma foldl_laterOf_mem (l : List Profile) (a : Profile) :
    l.foldl laterOf a = a ∨ l.foldl laterOf a ∈ l := by
  induction l generalizing a with
  | nil => exact Or.inl rfl
  | cons x xs ih =>
    simp only [List.foldl_cons]
    rcases ih (laterOf a x) with h | h
    · rw [h]
      unfold laterOf
      split
      · exact Or.inr (List.mem_cons_self x xs)
      · exact Or.inl rfl
    · exact Or.inr (List.mem_cons_of_mem x h)

private lemma foldl_laterOf_ge_init (l : List Profile) (a : Profile) :
    a.created_on ≤ (l.foldl laterOf a).created_on := by
  induction l generalizing a with
  | nil => exact Nat.le_refl _
  | cons x xs ih =>
    simp only [List.foldl_cons]
    refine Nat.le_trans ?_ (ih (laterOf a x))
    unfold laterOf
    split
    · exact Nat.le_of_lt (by assumption)
    · exact Nat.le_refl _

private lemma foldl_laterOf_ge_mem (l : List Profile) (a : Profile) :
    ∀ q ∈ l, q.created_on ≤ (l.foldl laterOf a).created_on := by
  induction l generalizing a with
  | nil => intro q hq; exact absurd hq (List.not_mem_nil q)
  | cons x xs ih =>
    intro q hq
    simp only [List.foldl_cons]
    rcases List.mem_cons.mp hq with h | h
    · subst h
      refine Nat.le_trans ?_ (foldl_laterOf_ge_init xs (laterOf a q))
      unfold laterOf
      split
      · exact Nat.le_refl _
      · exact Nat.le_of_not_lt (by assumption)
    · exact ih (laterOf a x) q h

private lemma latestCreated_spec (l : List Profile) (p : Profile)
    (h : latestCreated l = some p) :
    p ∈ l ∧ ∀ q ∈ l, q.created_on ≤ p.created_on := by
  cases l with
  | nil => simp [latestCreated] at h
  | cons x xs =>
    simp only [latestCreated, Option.some.injEq] at h
    have hfold : xs.foldl laterOf x = p := by
      simpa [laterOf] using h
    constructor
    · rcases foldl_laterOf_mem xs x with hm | hm
      · rw [hfold] at hm
        exact hm ▸ List.mem_cons_self x xs
      · rw [hfold] at hm
        exact List.mem_cons_of_mem x hm
    · intro q hq
      rcases List.mem_cons.mp hq with hqx | hqxs
      · subst hqx
        rw [← hfold]
        exact foldl_laterOf_ge_init xs q
      · rw [← hfold]
        exact foldl_laterOf_ge_mem xs x q hqxs

end GetProfileLemmas

/-- C8: `get_profile` never raises (it is a total function whose exception
branches are caught in the source): with zero matching profiles it returns
`none`, and whenever it returns a profile, that profile matches the handle
case-insensitively and is most recently created among all matches. -/
theorem get_profile_degrades_gracefully (profiles : List Profile) (handle : String) :
    (get_profile profiles handle = none ↔
      profiles.filter (fun p => iexact p.handle handle) = []) ∧
    (∀ p, get_profile profiles handle = some p →
      p ∈ profiles.filter (fun q => iexact q.handle handle) ∧
      ∀ q ∈ profiles.filter (fun q => iexact q.handle handle),
        q.created_on ≤ p.created_on) := by
  constructor
  · unfold get_profile
    cases hf : profiles.filter (fun p => iexact p.handle handle) with
    | nil => simp
    | cons x xs =>
      cases xs with
      | nil => simp
      | cons y ys =>
        simp only [latestCreated, iff_false_intro (List.cons_ne_nil x (y :: ys)), iff_false]
        simp
  · intro p hp
    unfold get_profile at hp
    cases hf : profiles.filter (fun p => iexact p.handle handle) with
    | nil => rw [hf] at hp; simp at hp
    | cons x xs =>
      cases xs with
      | nil =>
        rw [hf] at hp
        simp only [Option.some.injEq] at hp
        subst hp
        constructor
        · exact List.mem_cons_self _ _
        · intro q hq
          rcases List.mem_cons.mp hq with h | h
          · exact h ▸ Nat.le_refl _
          · exact absurd h (List.not_mem_nil q)
      | cons y ys =>
        rw [hf] at hp
        exact latestCreated_spec (x :: y :: ys) p hp

/-- Witness for C8: a concrete store with two profiles sharing the handle
`alice` case-insensitively; lookup returns the one created later. -/
theorem get_profile_degrades_gracefully_witness :
    get_profile [⟨1, "Alice", 5, ""⟩, ⟨2, "ALICE", 9, ""⟩] "alice" = some ⟨2, "ALICE", 9, ""⟩ ∧
    (⟨2, "ALICE", 9, ""⟩ : Profile) ∈
      ([⟨1, "Alice", 5, ""⟩, ⟨2, "ALICE", 9, ""⟩] : List Profile).filter
        (fun q => iexact q.handle "alice") ∧
    ∀ q ∈ ([⟨1, "Alice", 5, ""⟩, ⟨2, "ALICE", 9, ""⟩] : List Profile).filter
        (fun q => iexact q.handle "alice"), q.created_on ≤ 9 := by
  refine ⟨?_, ?_⟩
  · decide
  · exact (get_profile_degrades_gracefully
      [⟨1, "Alice", 5, ""⟩, ⟨2, "ALICE", 9, ""⟩] "alice").2 ⟨2, "ALICE", 9, ""⟩ (by decide)

/-! ## The detail view (`details`, views.py:173) -/

/-- `re.match(r'\d+', kudos_id)`: `re.match` anchors at the start of the
string, so the pattern succeeds iff the first character is a digit
(non-ASCII Unicode digits are not modelled). -/
def startsWithDigit (s : String) : Bool :=
  match s.data with
  | [] => false
  | c :: _ => c.isDigit

/-- Model of the ORM's `int()` conversion of the textual primary key used by
`get_object_or_404(Token, pk=kudos_id)`: succeeds iff the whole string is
decimal digits (signs and whitespace are not modelled). -/
def pkToNat (s : String) : Option Nat :=
  if s.data ≠ [] ∧ s.data.all Char.isDigit then
    some (s.data.foldl (fun n c => n * 10 + (c.toNat - 48)) 0)
  else
    none

/-- The failure modes of the `details` view. -/
inductive DetailsError
  /-- the explicit pre-lookup check `if not re.match(r'\d+', kudos_id)`
  raising `ValueError('Invalid Kudos ID found. ...')` -/
  | valueError
  /-- `ValueError` raised by the ORM converting a non-numeric pk string -/
  | fieldValueError
  /-- `get_object_or_404` found no Token -/
  | http404
  /-- the Gen0 lookup `Token.objects.get(token_id=..., contract__address=...)`
  raised `DoesNotExist` -/
  | genDoesNotExist
  /-- the Gen0 lookup raised `MultipleObjectsReturned` -/
  | genMultipleReturned
deriving DecidableEq, Repr

/-- The rendering context produced by `details` (the fields derived from the
looked-up records; static template strings are omitted).
`kudos_num_clones_in_wild` / `kudos_num_gen0_clones_allowed` are the two
display fields overwritten from the Gen0 ancestor. -/
structure DetailsContext where
  kudos_pk : Nat
  title : String
  card_title : String
  card_desc : String
  avatar_url : String
  kudos_num_clones_in_wild : Nat
  kudos_num_gen0_clones_allowed : Nat
deriving DecidableEq, Repr

/-- `details(request, kudos_id, name)` (views.py:173): validate that the id
starts with a digit, look the Token up by pk, then fetch the Gen0 record
matching `token_id = kudos.cloned_from_id` and the same contract address,
and source the displayed clone counters from it.  (The `related_kudos` /
`related_profiles` side queries are read-only and do not feed the fields
modelled here.) -/
def details (tokens : List Token) (kudos_id : String) : Except DetailsError DetailsContext :=
  if !startsWithDigit kudos_id then
    .error .valueError
  else
    match pkToNat kudos_id with
    | none => .error .fieldValueError
    | some pk =>
      match tokens.find? (fun t => t.pk == pk) with
      | none => .error .http404
      | some kudos =>
        match objectsGet tokens (fun t =>
            t.token_id == kudos.cloned_from_id &&
            t.contract_address == kudos.contract_address) with
        | .error .doesNotExist => .error .genDoesNotExist
        | .error .multipleObjectsReturned => .error .genMultipleReturned
        | .ok token =>
          .ok { kudos_pk := kudos.pk,
                title := kudos.humanized_name,
                card_title := kudos.humanized_name,
                card_desc := kudos.description,
                avatar_url := kudos.img_url,
                kudos_num_clones_in_wild := token.num_clones_in_wild,
                kudos_num_gen0_clones_allowed := token.num_clones_allowed }

/-- C10: the leading-digit check runs before any database lookup — for an id
whose first character is not a digit, `details` raises `ValueError`
uniformly in the token store; and the check accepts any id whose first
character is a digit (even when later characters are non-numeric): the
explicit `ValueError` of views.py:176 is then never raised. -/
theorem details_id_check (tokens : List Token) (s : String) :
    (startsWithDigit s = false → details tokens s = .error .valueError) ∧
    (startsWithDigit s = true → details tokens s ≠ .error .valueError) := by
  constructor
  · intro h
    unfold details
    rw [h]
    rfl
  · intro h
    unfold details
    rw [h]
    simp only [Bool.not_true, Bool.false_eq_true, if_false]
    cases pkToNat s with
    | none => simp
    | some pk =>
      simp only
      cases tokens.find? (fun t => t.pk == pk) with
      | none => simp
      | some kudos =>
        simp only
        cases hg : objectsGet tokens (fun t =>
            t.token_id == kudos.cloned_from_id &&
            t.contract_address == kudos.contract_address) with
        | error e => cases e <;> simp [hg]
        | ok token => simp [hg]

/-- Witness for C10 at concrete inputs: `"abc"` fails the check before any
lookup, and `"7abc"` (first character a digit, rest non-numeric) passes it. -/
theorem details_id_check_witness :
    details [] "abc" = .error .valueError ∧
    details [] "7abc" ≠ .error .valueError := by
  constructor
  · exact (details_id_check [] "abc").1 (by decide)
  · exact (details_id_check [] "7abc").2 (by decide)

/-- C9: for a clone token (clone-allowance 0) whose `(cloned_from_id,
contract address)` pair resolves to exactly one Gen0 record, the detail
view reports the displayed number-of-clones-in-the-wild and
clones-allowed values from that Gen0 record. -/
theorem details_clone_displays_gen0 (tokens : List Token) (kudos_id : String)
    (pk : Nat) (clone gen0 : Token)
    (hdigit : startsWithDigit kudos_id = true)
    (hpk : pkToNat kudos_id = some pk)
    (hfind : tokens.find? (fun t => t.pk == pk) = some clone)
    (hclone : clone.num_clones_allowed = 0)
    (hgen : tokens.filter (fun t =>
        t.token_id == clone.cloned_from_id &&
        t.contract_address == clone.contract_address) = [gen0]) :
    ∃ ctx, details tokens kudos_id = .ok ctx ∧
      ctx.kudos_pk = clone.pk ∧
      ctx.kudos_num_clones_in_wild = gen0.num_clones_in_wild ∧
      ctx.kudos_num_gen0_clones_allowed = gen0.num_clones_allowed := by
  have hdet : details tokens kudos_id =
      .ok { kudos_pk := clone.pk,
            title := clone.humanized_name,
            card_title := clone.humanized_name,
            card_desc := clone.description,
            avatar_url := clone.img_url,
            kudos_num_clones_in_wild := gen0.num_clones_in_wild,
            kudos_num_gen0_clones_allowed := gen0.num_clones_allowed } := by
    unfold details
    rw [hdigit]
    simp only [Bool.not_true, Bool.false_eq_true, if_false]
    rw [hpk]
    simp only
    rw [hfind]
    simp only
    rw [show objectsGet tokens (fun t =>
        t.token_id == clone.cloned_from_id &&
        t.contract_address == clone.contract_address) = .ok gen0 from by
      unfold objectsGet
      rw [hgen]]
  exact ⟨_, hdet, rfl, rfl, rfl⟩

/-- Witness for C9, the spec's scenario: Gen0 token pk=42 with
clone-allowance 5 and 3 clones in the wild; clone pk=99 with
clone-allowance 0 and cloned-from 42.  The detail view for id `"99"`
reports 3 and 5, sourced from pk=42. -/
theorem details_clone_displays_gen0_witness :
    ∃ ctx,
      details
        [⟨42, 42, "0xc", "n", "d", "N", "u", 5, 3, 42, false⟩,
         ⟨99, 990, "0xc", "n", "d", "N", "u", 0, 0, 42, false⟩] "99" = .ok ctx ∧
      ctx.kudos_pk = 99 ∧
      ctx.kudos_num_clones_in_wild = 3 ∧
      ctx.kudos_num_gen0_clones_allowed = 5 := by
  exact details_clone_displays_gen0
    [⟨42, 42, "0xc", "n", "d", "N", "u", 5, 3, 42, false⟩,
     ⟨99, 990, "0xc", "n", "d", "N", "u", 0, 0, 42, false⟩]
    "99" 99
    ⟨99, 990, "0xc", "n", "d", "N", "u", 0, 0, 42, false⟩
    ⟨42, 42, "0xc", "n", "d", "N", "u", 5, 3, 42, false⟩
    (by decide) (by decide) (by decide) (by decide) (by decide)

/-! ## Creating a transfer (`send_3`, views.py:305) -/

/-- `'...'.lstrip('@')`: drop every leading `@`. -/
def lstripAt (s : String) : String := ⟨s.data.dropWhile (fun c => c = '@')⟩

/-- The JSON body of a `send_3` request (`json.loads(request.body)`),
restricted to the keys the view reads.  `kudosId` is `none` when the key is
missing. -/
structure Send3Params where
  username : String
  email : Option String
  fromEmail : Option String
  kudosId : Option Nat
  amount : String
  comments_public : String
  github_url : String
  from_name : String
  from_email : String
  network : String
  tokenAddress : String
  from_address : String
  is_for_bounty_fulfiller : Bool
  metadata : Metadata
deriving DecidableEq, Repr

/-- A `send_3` request: authentication context, client IP and parsed body.
`to_emails_master` stands for the external `get_emails_master(to_username)`
call. -/
structure Send3Request where
  user_is_authenticated : Bool
  user_username : String
  body : Send3Params
  ip : String
  to_emails_master : List String
deriving DecidableEq, Repr

inductive Send3Outcome
  | http404
  | jsonOk (status message : String)
deriving DecidableEq, Repr

/-- `send_3(request)` (views.py:305): build the recipient email list, require
a truthy `kudosId` that resolves to an existing Token (else `Http404`),
then insert one `KudosTransfer` row in `CREATED` state (empty `txid`).
`nextPk` models the store assigning the new row's primary key;
`web3_type`/`trust_url`/receive fields take their model defaults. -/
def send_3 (tokens : List Token) (profiles : List Profile)
    (transfers : List KudosTransfer) (req : Send3Request) (nextPk : Nat) :
    Send3Outcome × List KudosTransfer :=
  let from_username := if req.user_is_authenticated then req.user_username else ""
  let to_username := lstripAt req.body.username
  let to_emails := req.to_emails_master ++
    (match req.body.email with | some e => [e] | none => [])
  let to_emails := to_emails.eraseDups
  match req.body.kudosId with
  | none => (.http404, transfers)
  | some kudos_id =>
    if kudos_id = 0 then
      (.http404, transfers)
    else
      match tokens.find? (fun t => t.pk == kudos_id) with
      | none => (.http404, transfers)
      | some _kudos_token_cloned_from =>
        let row : KudosTransfer :=
          { pk := nextPk,
            emails := to_emails,
            kudos_token_cloned_from := kudos_id,
            amount := req.body.amount,
            comments_public := req.body.comments_public,
            ip := req.ip,
            github_url := req.body.github_url,
            from_name := req.body.from_name,
            from_email := req.body.from_email,
            from_username := from_username,
            username := req.body.username,
            network := req.body.network,
            tokenAddress := req.body.tokenAddress,
            from_address := req.body.from_address,
            is_for_bounty_fulfiller := req.body.is_for_bounty_fulfiller,
            metadata := req.body.metadata,
            recipient_profile := (get_profile profiles to_username).map (fun p => p.pk),
            sender_profile := (get_profile profiles from_username).map (fun p => p.pk),
            txid := "",
            receive_txid := "",
            receive_address := "",
            received_on := none,
            web3_type := "v3",
            trust_url := false }
        (.jsonOk "OK" "Kudos Created", transfers ++ [row])

/-- C3: whenever the token reference is missing, falsy, or resolves to no
Token row, `send_3` fails with `Http404` and the transfer store is
unchanged (no insertion). -/
theorem send_3_missing_token_404 (tokens : List Token) (profiles : List Profile)
    (transfers : List KudosTransfer) (req : Send3Request) (nextPk : Nat)
    (h : req.body.kudosId = none ∨ req.body.kudosId = some 0 ∨
      ∀ kid, req.body.kudosId = some kid → tokens.find? (fun t => t.pk == kid) = none) :
    send_3 tokens profiles transfers req nextPk = (.http404, transfers) := by
  unfold send_3
  rcases h with h | h | h
  · rw [h]
  · rw [h]
    simp
  · cases hk : req.body.kudosId with
    | none => rfl
    | some kid =>
      simp only
      by_cases h0 : kid = 0
      · rw [if_pos h0]
      · rw [if_neg h0, h kid hk]

/-- Witness for C3 at a concrete input: a store holding only token pk=5, a
request referencing kudosId=7; the call returns 404 and inserts nothing. -/
theorem send_3_missing_token_404_witness :
    send_3 [⟨5, 5, "0xc", "n", "d", "N", "u", 3, 0, 5, false⟩] [] []
      ⟨true, "alice",
        ⟨"@bob", none, none, some 7, "1", "", "", "a", "a@x", "mainnet", "0xt", "0xf",
          false, ⟨"0xm", 100, "s1", "rh", "fh"⟩⟩,
        "1.2.3.4", []⟩ 1 =
      (.http404, []) := by
  exact send_3_missing_token_404 _ _ _ _ 1
    (Or.inr (Or.inr (fun kid hkid => by
      cases hkid
      decide)))

/-! ## Confirming the funding transaction (`send_4`, views.py:381) -/

/-- The JSON body of a `send_4` request.  `is_direct_to_recipient` is
`params.get('is_direct_to_recipient', False)`. -/
structure Send4Params where
  txid : String
  destinationAccount : String
  is_direct_to_recipient : Bool
  creation_time : Nat
  salt : String
deriving DecidableEq, Repr

/-- A `send_4` request: the caller's username (empty when anonymous), the
caller's IP, and the parsed body. -/
structure Send4Request where
  user_username : String
  ip : String
  body : Send4Params
deriving DecidableEq, Repr

/-- The metadata-triple filter of the `send_4` lookup
(`metadata__address`, `metadata__creation_time`, `metadata__salt`). -/
def tripleMatch (body : Send4Params) (kt : KudosTransfer) : Bool :=
  kt.metadata.address == body.destinationAccount &&
  kt.metadata.creation_time == body.creation_time &&
  kt.metadata.salt == body.salt

inductive Send4Outcome
  | jsonError (message : String) (status : Nat)
  | jsonOk (status message : String)
deriving DecidableEq, Repr

structure Send4Result where
  outcome : Send4Outcome
  transfers : List KudosTransfer
  notifications_attempted : Nat
deriving DecidableEq, Repr

/-- Modelled from the spec: `dashboard.notifications.maybe_market_kudos_to_email`
is not under `src/`.  The spec says the notification sink is fire-and-forget:
exactly one dispatch is attempted per call and "sink failures must not roll
back or fail this operation (logged and swallowed)".  The function returns
the number of dispatch attempts; the failure flag does not influence the
caller-visible outcome. -/
def maybe_market_kudos_to_email (_sinkFails : Bool) : Nat := 1

/-- `send_4(request)` (views.py:381): locate the transfer by its metadata
triple (`QuerySet.get`: `DoesNotExist`/`MultipleObjectsReturned` propagate),
authorize by stored-IP equality or truthy-stored-username equality, return
a 401 JSON error when both fail, otherwise set `txid` (and `receive_txid`
too when the request is flagged direct-to-recipient), save, and attempt one
notification dispatch. -/
def send_4 (transfers : List KudosTransfer) (req : Send4Request) (sinkFails : Bool) :
    Except DbError Send4Result :=
  match objectsGet transfers (tripleMatch req.body) with
  | .error e => .error e
  | .ok kudos_transfer =>
    let is_authenticated_via_login :=
      kudos_transfer.from_username ≠ "" ∧
      kudos_transfer.from_username = req.user_username
    let is_authenticated_for_this_via_ip := kudos_transfer.ip = req.ip
    let is_authed := is_authenticated_for_this_via_ip ∨ is_authenticated_via_login
    if ¬ is_authed then
      .ok { outcome := .jsonError "Permission Denied" 401,
            transfers := transfers,
            notifications_attempted := 0 }
    else
      let kt' := { kudos_transfer with
        txid := req.body.txid,
        receive_txid :=
          if req.body.is_direct_to_recipient then req.body.txid
          else kudos_transfer.receive_txid }
      .ok { outcome := .jsonOk "OK" "Kudos Sent",
            transfers := transfers.map (fun t => if t.pk == kudos_transfer.pk then kt' else t),
            notifications_attempted := maybe_market_kudos_to_email sinkFails }

/-- C1: when the located transfer's stored IP differs from the caller's IP
and its stored sender username differs from the caller's username, `send_4`
returns the `Permission Denied` JSON error with HTTP status 401, the
transfer store is returned unchanged (in particular the record's `txid`
stays empty) and no notification is attempted. -/
theorem send_4_permission_denied (transfers : List KudosTransfer)
    (req : Send4Request) (sinkFails : Bool) (kt : KudosTransfer)
    (hloc : objectsGet transfers (tripleMatch req.body) = .ok kt)
    (hip : kt.ip ≠ req.ip)
    (huser : kt.from_username ≠ req.user_username) :
    send_4 transfers req sinkFails =
      .ok { outcome := .jsonError "Permission Denied" 401,
            transfers := transfers,
            notifications_attempted := 0 } := by
  unfold send_4
  rw [hloc]
  simp only
  rw [if_pos]
  intro h
  rcases h with h | ⟨_, h⟩
  · exact hip h
  · exact huser h

/-- A sample transfer record used by the concrete witnesses below: only the
fields the theorems inspect vary, the rest are fixed sample values. -/
def mkTransfer (pk : Nat) (ip from_username username network txid receive_txid : String)
    (md : Metadata) (trust_url : Bool) : KudosTransfer :=
  { pk := pk, emails := [], kudos_token_cloned_from := 5, amount := "1",
    comments_public := "", ip := ip, github_url := "", from_name := "c",
    from_email := "c@x", from_username := from_username, username := username,
    network := network, tokenAddress := "0xt", from_address := "0xf",
    is_for_bounty_fulfiller := false, metadata := md,
    recipient_profile := none, sender_profile := none,
    txid := txid, receive_txid := receive_txid, receive_address := "",
    received_on := none, web3_type := "v3", trust_url := trust_url }

/-- Witness for C1 at a concrete input: a single stored transfer with
IP `9.9.9.9` and sender `carol`; the caller comes from `1.1.1.1` as
`mallory`.  The call is denied with 401 and the store is unchanged. -/
theorem send_4_permission_denied_witness :
    send_4
      [mkTransfer 1 "9.9.9.9" "carol" "@bob" "mainnet" "" "" ⟨"0xdest", 100, "s1", "rh", "fh"⟩ false]
      ⟨"mallory", "1.1.1.1", ⟨"0xdead", "0xdest", false, 100, "s1"⟩⟩ false =
      .ok { outcome := .jsonError "Permission Denied" 401,
            transfers :=
              [mkTransfer 1 "9.9.9.9" "carol" "@bob" "mainnet" "" ""
                ⟨"0xdest", 100, "s1", "rh", "fh"⟩ false],
            notifications_attempted := 0 } := by
  exact send_4_permission_denied
    [mkTransfer 1 "9.9.9.9" "carol" "@bob" "mainnet" "" "" ⟨"0xdest", 100, "s1", "rh", "fh"⟩ false]
    ⟨"mallory", "1.1.1.1", ⟨"0xdead", "0xdest", false, 100, "s1"⟩⟩ false
    (mkTransfer 1 "9.9.9.9" "carol" "@bob" "mainnet" "" "" ⟨"0xdest", 100, "s1", "rh", "fh"⟩ false)
    rfl (by decide) (by decide)

/-- C4: for an authorized `send_4` call (here: caller IP equal to the stored
IP) whose metadata triple matches exactly one stored transfer, in `CREATED`
state: the success acknowledgement is returned for every notification-sink
outcome, exactly one dispatch is attempted, the located record's `txid`
becomes the supplied transaction id (and `receive_txid` becomes the same
value exactly when the request is flagged direct-to-recipient), and every
other record is carried over unchanged. -/
theorem send_4_confirms_funding (transfers : List KudosTransfer)
    (req : Send4Request) (sinkFails : Bool) (kt : KudosTransfer)
    (hloc : transfers.filter (tripleMatch req.body) = [kt])
    (hauth : kt.ip = req.ip)
    (hcreated : kt.txid = "") :
    ∃ r, send_4 transfers req sinkFails = .ok r ∧
      r.outcome = .jsonOk "OK" "Kudos Sent" ∧
      r.notifications_attempted = 1 ∧
      (∀ t' ∈ r.transfers, t'.pk = kt.pk →
        t'.txid = req.body.txid ∧
        t'.receive_txid =
          (if req.body.is_direct_to_recipient then req.body.txid else kt.receive_txid)) ∧
      (∀ t ∈ transfers, t.pk ≠ kt.pk → t ∈ r.transfers) ∧
      (∃ t' ∈ r.transfers, t'.pk = kt.pk) := by
  have hget : objectsGet transfers (tripleMatch req.body) = .ok kt := by
    unfold objectsGet
    rw [hloc]
  have hktmem : kt ∈ transfers := by
    have : kt ∈ transfers.filter (tripleMatch req.body) := by
      rw [hloc]; exact List.mem_cons_self _ _
    exact (List.mem_filter.mp this).1
  refine ⟨{ outcome := .jsonOk "OK" "Kudos Sent",
            transfers := transfers.map (fun t => if t.pk == kt.pk then
              { kt with
                txid := req.body.txid,
                receive_txid :=
                  if req.body.is_direct_to_recipient then req.body.txid
                  else kt.receive_txid } else t),
            notifications_attempted := maybe_market_kudos_to_email sinkFails },
    ?_, rfl, rfl, ?_, ?_, ?_⟩
  · unfold send_4
    rw [hget]
    simp only
    rw [if_neg]
    intro hn
    exact hn (Or.inl hauth)
  · intro t' ht' hpk
    simp only [List.mem_map] at ht'
    obtain ⟨t, _, ht⟩ := ht'
    by_cases hc : (t.pk == kt.pk) = true
    · rw [if_pos hc] at ht
      subst ht
      exact ⟨rfl, rfl⟩
    · rw [if_neg (by simpa using hc)] at ht
      subst ht
      exact absurd hpk (by simpa using hc)
  · intro t ht hne
    refine List.mem_map.mpr ⟨t, ht, ?_⟩
    rw [if_neg (by simpa using hne)]
  · refine ⟨{ kt with
        txid := req.body.txid,
        receive_txid :=
          if req.body.is_direct_to_recipient then req.body.txid
          else kt.receive_txid }, ?_, rfl⟩
    refine List.mem_map.mpr ⟨kt, hktmem, ?_⟩
    rw [if_pos (by simp)]

/-- Witness for C4: the spec's scenario — a single transfer with metadata
triple `("0xabc", 100, "s1")` in `CREATED` state, confirmed with txid
`"0xdeadbeef"` from the stored IP, not direct-to-recipient. -/
theorem send_4_confirms_funding_witness :
    ∃ r, send_4
      [mkTransfer 1 "1.2.3.4" "carol" "@bob" "mainnet" "" "" ⟨"0xabc", 100, "s1", "rh", "fh"⟩ false]
      ⟨"someone", "1.2.3.4", ⟨"0xdeadbeef", "0xabc", false, 100, "s1"⟩⟩ true = .ok r ∧
      r.outcome = .jsonOk "OK" "Kudos Sent" ∧
      r.notifications_attempted = 1 ∧
      (∀ t' ∈ r.transfers, t'.pk = 1 → t'.txid = "0xdeadbeef") := by
  obtain ⟨r, hr, ho, hn, hupd, _, _⟩ := send_4_confirms_funding
    [mkTransfer 1 "1.2.3.4" "carol" "@bob" "mainnet" "" "" ⟨"0xabc", 100, "s1", "rh", "fh"⟩ false]
    ⟨"someone", "1.2.3.4", ⟨"0xdeadbeef", "0xabc", false, 100, "s1"⟩⟩ true
    (mkTransfer 1 "1.2.3.4" "carol" "@bob" "mainnet" "" "" ⟨"0xabc", 100, "s1", "rh", "fh"⟩ false)
    (by decide) (by decide) (by decide)
  exact ⟨r, hr, ho, hn, fun t' ht' hpk => (hupd t' ht' hpk).1⟩

/-! ## Claiming a kudos (`receive`, views.py:460) -/

/-- A Django `messages` entry: the framework level and the text. -/
inductive Message
  | info (text : String)
  | error (text : String)
  | success (text : String)
deriving DecidableEq, Repr

/-- The query parameters `receive` reads from `request.GET`.  `none` models a
missing key: `params.get(k)` then yields `None` (falsy) while `params[k]`
raises `MultiValueDictKeyError`. -/
structure GetParams where
  save_addr : Option String
  forwarding_address : Option String
  receive_txid : Option String
deriving DecidableEq, Repr

/-- Python truthiness of `params.get(k)`: missing key and empty string are
falsy. -/
def truthy : Option String → Bool
  | none => false
  | some s => s ≠ ""

/-- A `receive` request: URL parts `key`/`txid`/`network`, the caller's
authentication context, and the query parameters. -/
structure ReceiveRequest where
  key : String
  txid : String
  network : String
  user_is_authenticated : Bool
  user_has_profile : Bool
  user_username : String
  getParams : GetParams
deriving DecidableEq, Repr

/-- Failure injection for the external calls inside the claim mutation block:
either none of them raises, or `profile.save()`, `kudos_transfer.save()` or
`record_user_action(...)` raises. -/
inductive FailStep
  | noFailure
  | profileSave
  | ktSave
  | recordUserAction
deriving DecidableEq, Repr

/-- `'...'.replace('@', '')`: drop every `@`. -/
def stripAt (s : String) : String := ⟨s.data.filter (fun c => c ≠ '@')⟩

/-- `kudos_transfer.save()` / `profile.save()`: persist the in-memory record
over the row with the same pk. -/
def saveTransfer (transfers : List KudosTransfer) (kt : KudosTransfer) : List KudosTransfer :=
  transfers.map (fun t => if t.pk == kt.pk then kt else t)

def saveProfile (profiles : List Profile) (p : Profile) : List Profile :=
  profiles.map (fun q => if q.pk == p.pk then p else q)

/-- The state after the `try`-block of the claim mutation (views.py:499-517):
the in-memory transfer record, the two stores, the single message the block
queued, and whether an exception was raised (and caught). -/
structure MutResult where
  raised : Bool
  msg : Message
  ktMem : KudosTransfer
  transfers : List KudosTransfer
  profiles : List Profile
deriving DecidableEq, Repr

/-- The `if params['save_addr']:` sub-block (views.py:500-507): when the
supplied value is truthy and the recipient has a profile, overwrite its
preferred payout address with `params['forwarding_address']` (bracket
access: missing key raises) and save it (`fail = profileSave` injects a
raising save). -/
def profileStep (profiles : List Profile) (kt : KudosTransfer) (g : GetParams)
    (save_addr : String) (fail : FailStep) : Except String (List Profile) :=
  if save_addr ≠ "" then
    match get_profile profiles kt.username with
    | some profile =>
      match g.forwarding_address with
      | none => .error "MultiValueDictKeyError: forwarding_address"
      | some fa =>
        if fail = .profileSave then .error "profile save failed"
        else .ok (saveProfile profiles { profile with preferred_payout_address := fa })
    | none => .ok profiles
  else .ok profiles

/-- The claim mutation block (views.py:499-517), step by step with Python
exception semantics: a raise aborts the remaining statements, keeping every
assignment and save already performed, and the `except` arm queues
`messages.error(str(e))`.  `params['save_addr']` and
`params['forwarding_address']` are bracket accesses and raise when the key
is missing; `fail` injects a failure into the named external call. -/
def claimMutation (transfers : List KudosTransfer) (profiles : List Profile)
    (kt : KudosTransfer) (g : GetParams) (now : Nat) (fail : FailStep) : MutResult :=
  match g.save_addr with
  | none => ⟨true, .error "MultiValueDictKeyError: save_addr", kt, transfers, profiles⟩
  | some save_addr =>
    match profileStep profiles kt g save_addr fail with
    | .error e => ⟨true, .error e, kt, transfers, profiles⟩
    | .ok profiles' =>
      match g.receive_txid with
      | none => ⟨true, .error "MultiValueDictKeyError: receive_txid", kt, transfers, profiles'⟩
      | some rt =>
        match g.forwarding_address with
        | none =>
          ⟨true, .error "MultiValueDictKeyError: forwarding_address",
            { kt with receive_txid := rt }, transfers, profiles'⟩
        | some fa =>
          if fail = .ktSave then
            ⟨true, .error "transfer save failed",
              { kt with receive_txid := rt, receive_address := fa, received_on := some now },
              transfers, profiles'⟩
          else if fail = .recordUserAction then
            ⟨true, .error "record_user_action failed",
              { kt with receive_txid := rt, receive_address := fa, received_on := some now },
              saveTransfer transfers
                { kt with receive_txid := rt, receive_address := fa, received_on := some now },
              profiles'⟩
          else
            -- record_kudos_email_activity catches its own failures (views.py:442-457)
            ⟨false, .success "This kudos has been received",
              { kt with receive_txid := rt, receive_address := fa, received_on := some now },
              saveTransfer transfers
                { kt with receive_txid := rt, receive_address := fa, received_on := some now },
              profiles'⟩

/-- The three shapes a `receive` call can produce. -/
inductive ReceiveOutcome
  /-- `kudos_emails.first()` returned `None`, and line 471 dereferences it
  (`kudos_transfer.trust_url`): `AttributeError`, an unhandled server-error
  page. -/
  | attributeError
  /-- unauthenticated caller (or no linked profile): redirect to
  `/login/github?next=...`. -/
  | loginRedirect
  /-- the rendered `transaction/receive.html` page: queued messages, the
  in-memory `kudos_transfer` handed to the template, and `disable_inputs`. -/
  | page (msgs : List Message) (kudos_transfer : KudosTransfer) (disable_inputs : Bool)
deriving DecidableEq, Repr

structure ReceiveResult where
  outcome : ReceiveOutcome
  transfers : List KudosTransfer
  profiles : List Profile
deriving DecidableEq, Repr

/-- The record lookup of `receive` (views.py:467-470): restrict to
`web3_type='v3'` rows with the given txid and network, keep those whose
metadata reference hash for the recipient or the funder equals `key`, and
take the first row. -/
def receiveLookup (transfers : List KudosTransfer) (req : ReceiveRequest) :
    Option KudosTransfer :=
  let these_kudos_emails := transfers.filter (fun kt =>
    kt.web3_type == "v3" && kt.txid == req.txid && kt.network == req.network)
  (these_kudos_emails.filter (fun kt =>
    kt.metadata.reference_hash_for_receipient == req.key ||
    kt.metadata.reference_hash_for_funder == req.key)).head?

/-- The authorization check of `receive` (views.py:471-474). -/
def claimIsAuthed (kt : KudosTransfer) (user_username : String) : Bool :=
  kt.trust_url ||
  (stripAt user_username == stripAt kt.username ||
   stripAt user_username == stripAt kt.from_username)

/-- `receive(request, key, txid, network)` (views.py:460):
`address_balance_zero` models the external chain-balance query
(`not_mined_yet`), `now` the claim timestamp, `fail` the
failure injection for the mutation block's external calls. -/
def receive (transfers : List KudosTransfer) (profiles : List Profile)
    (req : ReceiveRequest) (address_balance_zero : Bool) (now : Nat)
    (fail : FailStep) : ReceiveResult :=
  match receiveLookup transfers req with
  | none => ⟨.attributeError, transfers, profiles⟩
  | some kudos_transfer =>
    let is_authed := claimIsAuthed kudos_transfer req.user_username
    let not_mined_yet := address_balance_zero
    if ¬ req.user_is_authenticated ∨
        (req.user_is_authenticated ∧ ¬ req.user_has_profile) then
      ⟨.loginRedirect, transfers, profiles⟩
    else
      let step : List Message × KudosTransfer × List KudosTransfer × List Profile :=
        if kudos_transfer.receive_txid ≠ "" then
          ([.info "This kudos has been received"], kudos_transfer, transfers, profiles)
        else if ¬ is_authed then
          ([.error ("This kudos is for " ++ kudos_transfer.username ++
            " but you are logged in as " ++ req.user_username ++
            ".  Please logout and log back in as " ++ kudos_transfer.username ++ ".")],
            kudos_transfer, transfers, profiles)
        else if not_mined_yet ∧ ¬ truthy req.getParams.receive_txid then
          ([.info "The transaction is still mining.  Please wait a moment before submitting the receive form."],
            kudos_transfer, transfers, profiles)
        else if truthy req.getParams.receive_txid ∧ kudos_transfer.receive_txid = "" then
          let m := claimMutation transfers profiles kudos_transfer req.getParams now fail
          ([m.msg], m.ktMem, m.transfers, m.profiles)
        else
          ([], kudos_transfer, transfers, profiles)
      match step with
      | (msgs, ktMem, transfers', profiles') =>
        ⟨.page msgs ktMem
          (ktMem.receive_txid != "" || not_mined_yet || !is_authed),
          transfers', profiles'⟩

/-- Discriminator: did the call render the receive page at all (as opposed
to redirecting or crashing)? -/
def ReceiveOutcome.isRenderedPage : ReceiveOutcome → Bool
  | .page _ _ _ => true
  | _ => false

/-- C5: when the key matches neither the recipient reference-hash nor the
funder reference-hash of any `v3` transfer with the given txid and network,
no record resolves: `kudos_emails.first()` is `None`, line 471 dereferences
it and the caller gets an (unhandled `AttributeError`) server error page;
both stores are unchanged. -/
theorem receive_no_match_error_page (transfers : List KudosTransfer)
    (profiles : List Profile) (req : ReceiveRequest)
    (address_balance_zero : Bool) (now : Nat) (fail : FailStep)
    (h : receiveLookup transfers req = none) :
    receive transfers profiles req address_balance_zero now fail =
      ⟨.attributeError, transfers, profiles⟩ := by
  unfold receive
  rw [h]

/-- Witness for C5: a store holding one matching-txid record whose two
reference hashes are `"rh"`/`"fh"`, claimed with key `"wrong"`. -/
theorem receive_no_match_error_page_witness :
    receive
      [mkTransfer 1 "9.9.9.9" "carol" "bob" "mainnet" "0xt1" ""
        ⟨"0xa", 100, "s1", "rh", "fh"⟩ false] []
      ⟨"wrong", "0xt1", "mainnet", true, true, "bob", ⟨none, none, none⟩⟩ false 0 .noFailure =
      ⟨.attributeError,
        [mkTransfer 1 "9.9.9.9" "carol" "bob" "mainnet" "0xt1" ""
          ⟨"0xa", 100, "s1", "rh", "fh"⟩ false], []⟩ := by
  exact receive_no_match_error_page _ _ _ false 0 .noFailure (by decide)

/-- Counterexample to C2 as stated: a transfer whose `receive_txid` is
already set, claimed by an unauthenticated caller.  The request is answered
with the login redirect — no page, hence no "already received" message, is
rendered (the stores are still unchanged). -/
theorem receive_terminal_counterexample :
    receive
      [mkTransfer 1 "9.9.9.9" "carol" "bob" "mainnet" "0xt1" "0xrecv"
        ⟨"0xa", 100, "s1", "rh", "fh"⟩ false] []
      ⟨"rh", "0xt1", "mainnet", false, false, "", ⟨none, none, none⟩⟩ false 0 .noFailure =
      ⟨.loginRedirect,
        [mkTransfer 1 "9.9.9.9" "carol" "bob" "mainnet" "0xt1" "0xrecv"
          ⟨"0xa", 100, "s1", "rh", "fh"⟩ false], []⟩ ∧
    ReceiveOutcome.isRenderedPage
      (receive
        [mkTransfer 1 "9.9.9.9" "carol" "bob" "mainnet" "0xt1" "0xrecv"
          ⟨"0xa", 100, "s1", "rh", "fh"⟩ false] []
        ⟨"rh", "0xt1", "mainnet", false, false, "", ⟨none, none, none⟩⟩
        false 0 .noFailure).outcome = false := by
  constructor
  · decide
  · decide

/-- C2 (amended): for an authenticated caller with a linked profile, a claim
against a record whose `receive_txid` is already non-empty is a no-op on
both stores and renders the page with exactly the informational
"This kudos has been received" message (inputs disabled). -/
theorem receive_already_received (transfers : List KudosTransfer)
    (profiles : List Profile) (req : ReceiveRequest)
    (address_balance_zero : Bool) (now : Nat) (fail : FailStep)
    (kt : KudosTransfer)
    (hloc : receiveLookup transfers req = some kt)
    (hterm : kt.receive_txid ≠ "")
    (hauth : req.user_is_authenticated = true)
    (hprof : req.user_has_profile = true) :
    receive transfers profiles req address_balance_zero now fail =
      ⟨.page [.info "This kudos has been received"] kt true, transfers, profiles⟩ := by
  unfold receive
  rw [hloc]
  simp only
  rw [if_neg (by
    rw [hauth, hprof]
    simp)]
  rw [if_pos hterm]
  have hb : (kt.receive_txid != "") = true := by
    rw [bne_iff_ne]
    exact hterm
  rw [hb]
  simp

/-- Witness for amended C2: the same already-received record, claimed by the
authenticated recipient `bob`. -/
theorem receive_already_received_witness :
    receive
      [mkTransfer 1 "9.9.9.9" "carol" "bob" "mainnet" "0xt1" "0xrecv"
        ⟨"0xa", 100, "s1", "rh", "fh"⟩ false] []
      ⟨"rh", "0xt1", "mainnet", true, true, "bob", ⟨none, none, none⟩⟩ false 0 .noFailure =
      ⟨.page [.info "This kudos has been received"]
        (mkTransfer 1 "9.9.9.9" "carol" "bob" "mainnet" "0xt1" "0xrecv"
          ⟨"0xa", 100, "s1", "rh", "fh"⟩ false) true,
        [mkTransfer 1 "9.9.9.9" "carol" "bob" "mainnet" "0xt1" "0xrecv"
          ⟨"0xa", 100, "s1", "rh", "fh"⟩ false], []⟩ := by
  exact receive_already_received _ _
    ⟨"rh", "0xt1", "mainnet", true, true, "bob", ⟨none, none, none⟩⟩
    false 0 .noFailure
    (mkTransfer 1 "9.9.9.9" "carol" "bob" "mainnet" "0xt1" "0xrecv"
      ⟨"0xa", 100, "s1", "rh", "fh"⟩ false)
    (by decide) (by decide) rfl rfl

lemma claimMutation_raised_msg_is_error (transfers : List KudosTransfer)
    (profiles : List Profile) (kt : KudosTransfer) (g : GetParams) (now : Nat)
    (fail : FailStep)
    (h : (claimMutation transfers profiles kt g now fail).raised = true) :
    ∃ e, (claimMutation transfers profiles kt g now fail).msg = .error e := by
  have key : ∀ m : MutResult, claimMutation transfers profiles kt g now fail = m →
      m.raised = true → ∃ e, m.msg = .error e := by
    intro m hm hr
    unfold claimMutation at hm
    repeat' split at hm
    all_goals subst hm
    all_goals first
      | exact ⟨_, rfl⟩
      | exact Bool.noConfusion hr
  exact key _ rfl h

/-- Counterexample to C6 as stated: the claim mutation raises in
`record_user_action`, i.e. after `kudos_transfer.save()` already persisted
the receive fields.  The exception is caught and the page renders with the
error message — but the store changed and the rendered record carries the
mutated (post-mutation) receive fields, not the pre-mutation state. -/
theorem receive_mutation_exception_counterexample :
    receive
      [mkTransfer 1 "9.9.9.9" "carol" "bob" "mainnet" "0xt1" ""
        ⟨"0xa", 100, "s1", "rh", "fh"⟩ false] []
      ⟨"rh", "0xt1", "mainnet", true, true, "bob",
        ⟨some "", some "0xfwd", some "0xrcv"⟩⟩ false 7 .recordUserAction =
      ⟨.page [.error "record_user_action failed"]
        { mkTransfer 1 "9.9.9.9" "carol" "bob" "mainnet" "0xt1" ""
            ⟨"0xa", 100, "s1", "rh", "fh"⟩ false with
          receive_txid := "0xrcv", receive_address := "0xfwd", received_on := some 7 } true,
        [{ mkTransfer 1 "9.9.9.9" "carol" "bob" "mainnet" "0xt1" ""
            ⟨"0xa", 100, "s1", "rh", "fh"⟩ false with
          receive_txid := "0xrcv", receive_address := "0xfwd", received_on := some 7 }], []⟩ ∧
    [{ mkTransfer 1 "9.9.9.9" "carol" "bob" "mainnet" "0xt1" ""
        ⟨"0xa", 100, "s1", "rh", "fh"⟩ false with
      receive_txid := "0xrcv", receive_address := "0xfwd", received_on := some 7 }] ≠
    [mkTransfer 1 "9.9.9.9" "carol" "bob" "mainnet" "0xt1" ""
      ⟨"0xa", 100, "s1", "rh", "fh"⟩ false] := by
  constructor
  · decide
  · decide

/-- C6 (amended): whenever the request reaches the claim mutation block and
the block raises, the exception is not propagated: the page still renders,
with the error message as its sole queued message, and the resulting stores
and rendered record are exactly the ones the block left behind — mutations
persisted before the failing step persist (the page can render a
post-mutation state). -/
theorem receive_mutation_exception_not_propagated (transfers : List KudosTransfer)
    (profiles : List Profile) (req : ReceiveRequest)
    (address_balance_zero : Bool) (now : Nat) (fail : FailStep)
    (kt : KudosTransfer)
    (hloc : receiveLookup transfers req = some kt)
    (hauth : req.user_is_authenticated = true)
    (hprof : req.user_has_profile = true)
    (hnotclaimed : kt.receive_txid = "")
    (hauthz : claimIsAuthed kt req.user_username = true)
    (hparam : truthy req.getParams.receive_txid = true)
    (hraised : (claimMutation transfers profiles kt req.getParams now fail).raised = true) :
    ∃ e d, receive transfers profiles req address_balance_zero now fail =
      ⟨.page [Message.error e]
        (claimMutation transfers profiles kt req.getParams now fail).ktMem d,
        (claimMutation transfers profiles kt req.getParams now fail).transfers,
        (claimMutation transfers profiles kt req.getParams now fail).profiles⟩ := by
  obtain ⟨e, he⟩ :=
    claimMutation_raised_msg_is_error transfers profiles kt req.getParams now fail hraised
  refine ⟨e,
    ((claimMutation transfers profiles kt req.getParams now fail).ktMem.receive_txid != "" ||
      address_balance_zero || !claimIsAuthed kt req.user_username), ?_⟩
  unfold receive
  rw [hloc]
  simp only
  rw [if_neg (by
    rw [hauth, hprof]
    simp)]
  rw [if_neg (by
    rw [hnotclaimed]
    simp)]
  rw [if_neg (by
    rw [hauthz]
    simp)]
  rw [if_neg (by
    rw [hparam]
    simp)]
  rw [if_pos (by
    rw [hparam, hnotclaimed]
    exact ⟨rfl, rfl⟩)]
  rw [he]

/-- Witness for amended C6: the profile save raises (injected failure) while
`save_addr` is truthy; nothing was persisted yet, the page renders with the
error message. -/
theorem receive_mutation_exception_not_propagated_witness :
    ∃ e d, receive
      [mkTransfer 1 "9.9.9.9" "carol" "bob" "mainnet" "0xt1" ""
        ⟨"0xa", 100, "s1", "rh", "fh"⟩ false] [⟨3, "bob", 50, "0xold"⟩]
      ⟨"rh", "0xt1", "mainnet", true, true, "bob",
        ⟨some "1", some "0xfwd", some "0xrcv"⟩⟩ false 7 .profileSave =
      ⟨.page [Message.error e]
        (claimMutation
          [mkTransfer 1 "9.9.9.9" "carol" "bob" "mainnet" "0xt1" ""
            ⟨"0xa", 100, "s1", "rh", "fh"⟩ false] [⟨3, "bob", 50, "0xold"⟩]
          (mkTransfer 1 "9.9.9.9" "carol" "bob" "mainnet" "0xt1" ""
            ⟨"0xa", 100, "s1", "rh", "fh"⟩ false)
          ⟨some "1", some "0xfwd", some "0xrcv"⟩ 7 .profileSave).ktMem d,
        (claimMutation
          [mkTransfer 1 "9.9.9.9" "carol" "bob" "mainnet" "0xt1" ""
            ⟨"0xa", 100, "s1", "rh", "fh"⟩ false] [⟨3, "bob", 50, "0xold"⟩]
          (mkTransfer 1 "9.9.9.9" "carol" "bob" "mainnet" "0xt1" ""
            ⟨"0xa", 100, "s1", "rh", "fh"⟩ false)
          ⟨some "1", some "0xfwd", some "0xrcv"⟩ 7 .profileSave).transfers,
        (claimMutation
          [mkTransfer 1 "9.9.9.9" "carol" "bob" "mainnet" "0xt1" ""
            ⟨"0xa", 100, "s1", "rh", "fh"⟩ false] [⟨3, "bob", 50, "0xold"⟩]
          (mkTransfer 1 "9.9.9.9" "carol" "bob" "mainnet" "0xt1" ""
            ⟨"0xa", 100, "s1", "rh", "fh"⟩ false)
          ⟨some "1", some "0xfwd", some "0xrcv"⟩ 7 .profileSave).profiles⟩ := by
  exact receive_mutation_exception_not_propagated
    [mkTransfer 1 "9.9.9.9" "carol" "bob" "mainnet" "0xt1" ""
      ⟨"0xa", 100, "s1", "rh", "fh"⟩ false] [⟨3, "bob", 50, "0xold"⟩]
    ⟨"rh", "0xt1", "mainnet", true, true, "bob",
      ⟨some "1", some "0xfwd", some "0xrcv"⟩⟩ false 7 .profileSave
    (mkTransfer 1 "9.9.9.9" "carol" "bob" "mainnet" "0xt1" ""
      ⟨"0xa", 100, "s1", "rh", "fh"⟩ false)
    (by decide) rfl rfl (by decide) (by decide) (by decide) (by decide)

/-! ## The bulk-coupon gate (`receive_bulk`, views.py:534) -/

/-- `kudos.models.BulkTransferCoupon`, restricted to the fields the view
uses. -/
structure BulkTransferCoupon where
  pk : Nat
  secret : String
deriving DecidableEq, Repr

/-- `kudos.models.BulkTransferRedemption`: which profile redeemed which
coupon. -/
structure BulkTransferRedemption where
  pk : Nat
  redeemed_by : Nat
  coupon : Nat
deriving DecidableEq, Repr

inductive BulkOutcome
  | http404
  /-- views.py:543 executes `raise HttpResponseForbidden`.
  `HttpResponseForbidden` is a Django response class, not a `BaseException`
  subclass, so the raise statement itself fails with
  `TypeError: exceptions must derive from BaseException` — the caller gets
  an unhandled server error (500), not an HTTP 403 response. -/
  | typeErrorRaised
  | page (coupon : BulkTransferCoupon)
deriving DecidableEq, Repr

/-- `receive_bulk(request, secret)` (views.py:534): resolve the coupon by
secret (`Http404` if none), then reject if a redemption row exists for
(caller's profile, coupon), else render the coupon.  No store is written. -/
def receive_bulk (coupons : List BulkTransferCoupon)
    (redemptions : List BulkTransferRedemption)
    (user_profile_pk : Nat) (secret : String) :
    BulkOutcome × List BulkTransferCoupon × List BulkTransferRedemption :=
  let matching := coupons.filter (fun c => c.secret == secret)
  match matching.head? with
  | none => (.http404, coupons, redemptions)
  | some coupon =>
    let reds := redemptions.filter (fun r =>
      r.redeemed_by == user_profile_pk && r.coupon == coupon.pk)
    if ¬ reds.isEmpty then
      (.typeErrorRaised, coupons, redemptions)
    else
      (.page coupon, coupons, redemptions)

/-- C7, evaluated at the failing input and at the two neighbouring inputs:
with coupon pk=1/secret `"sek"` and a redemption row for profile 7 — an
unknown secret yields `Http404` and a fresh profile gets the coupon
read-only, as claimed; but the already-redeemed profile 7 hits
`raise HttpResponseForbidden`, which raises `TypeError` (a 500), not an
HTTP 403 Forbidden rejection.  Stores are unchanged in all three cases. -/
theorem receive_bulk_already_redeemed_typeerror :
    receive_bulk [⟨1, "sek"⟩] [⟨1, 7, 1⟩] 7 "sek" =
      (.typeErrorRaised, [⟨1, "sek"⟩], [⟨1, 7, 1⟩]) ∧
    receive_bulk [⟨1, "sek"⟩] [⟨1, 7, 1⟩] 7 "nope" =
      (.http404, [⟨1, "sek"⟩], [⟨1, 7, 1⟩]) ∧
    receive_bulk [⟨1, "sek"⟩] [⟨1, 7, 1⟩] 8 "sek" =
      (.page ⟨1, "sek"⟩, [⟨1, "sek"⟩], [⟨1, 7, 1⟩]) := by
  refine ⟨?_, ?_, ?_⟩ <;> decide

end KudosApp
